import Mathlib

/-!
Verification of the login/session-issuance handler of Vibro.X-lite
(`src/unnamed/part_002`), shallowly embedded in Lean 4.

External collaborators (bcrypt, the CAPTCHA verifier, the mail transport,
random sources, the hash in `getDeviceFingerprint`) are modelled as
parameters in an `Env` record; the Supabase store is modelled as explicit
state (`St`) threaded through the handler, with store operations assumed
to succeed (the error-injection branches of the handler are not modelled).
Timestamps are epoch milliseconds as `Nat`.
-/

namespace VibroX

/-- A user row, mirroring the columns selected by the handler. -/
structure User where
  id : Nat
  email : String
  username : String
  verified : Option Bool
  suspended : Bool
  suspension_reason : Option String
  is_honeytoken : Bool
  limited_account : Bool
  spam_score : Nat
  last_login : Option Nat
  password : Option String
  encrypted_password : Option String
  profile_picture : Option String
  completed_profile : Option Bool
  last_fingerprint : Option String
  online : Bool
deriving DecidableEq, Repr

/-- A `pending_verifications` row. -/
structure Pending where
  email : String
  fingerprint : String
  code : String
  expires_at : Nat
deriving DecidableEq, Repr

/-- A `sessions` row (the persisted fields the handler writes). -/
structure Session where
  user_id : Option Nat
  user_email : String
  session_token : String
  expires_at : Nat
  verified : Bool
deriving DecidableEq, Repr

/-- The mutable state visible to the handler: the in-memory rate-limit
cache (`rateLimitCache`, a map from key to a list of attempt timestamps,
modelled as an association list) and the three store tables. -/
structure St where
  rate : List (String × List Nat)
  users : List User
  pendings : List Pending
  sessions : List Session
deriving DecidableEq, Repr

/-- `rateLimitCache.get(key) || []`. -/
def getRate (cache : List (String × List Nat)) (key : String) : List Nat :=
  match cache.find? (fun p => p.1 = key) with
  | some p => p.2
  | none => []

/-- `rateLimitCache.set(key, v)`: replace the binding for `key`. -/
def setRate (cache : List (String × List Nat)) (key : String) (v : List Nat) :
    List (String × List Nat) :=
  (key, v) :: cache.filter (fun p => p.1 ≠ key)

/-- `windowMs = 15 * 60 * 1000` (15 minutes). -/
def windowMs : Nat := 15 * 60 * 1000

/-- `maxAttempts = 5`. -/
def maxAttempts : Nat := 5

/-- `checkRateLimit(key)` from `src/unnamed/part_002` lines 30-45: filter
the recorded timestamps to those with `now - time < windowMs`; deny when
at least `maxAttempts` remain, otherwise append `now`, store the pruned
list back and allow.  Returns (allowed, updated cache). -/
def checkRateLimit (now : Nat) (key : String) (cache : List (String × List Nat)) :
    Bool × List (String × List Nat) :=
  let attempts := getRate cache key
  let recentAttempts := attempts.filter (fun time => now - time < windowMs)
  if maxAttempts ≤ recentAttempts.length then
    (false, cache)
  else
    (true, setRate cache key (recentAttempts ++ [now]))

/-- `logAttempt(key)` from lines 47-51: append `now` to the stored list
(no pruning). -/
def logAttempt (now : Nat) (key : String) (cache : List (String × List Nat)) :
    List (String × List Nat) :=
  setRate cache key (getRate cache key ++ [now])

/-- JS truthiness of an optional string field: `undefined`/`null`/`""`
are falsy. -/
def optTruthy : Option String → Bool
  | none => false
  | some s => s ≠ ""

/-- `user.encrypted_password || user.password || ''` (first truthy). -/
def passwordToCheck (u : User) : String :=
  match u.encrypted_password with
  | some s => if s = "" then
      (match u.password with
       | some t => t
       | none => "")
    else s
  | none =>
    match u.password with
    | some t => t
    | none => ""

/-- `user.suspension_reason || 'Account suspended. Please contact support.'`. -/
def suspensionMsg (u : User) : String :=
  match u.suspension_reason with
  | some r => if r = "" then "Account suspended. Please contact support." else r
  | none => "Account suspended. Please contact support."

/-- `passwordStrongEnough` from lines 130-138. -/
def passwordStrongEnough (p : String) : Bool :=
  decide (8 ≤ p.length) &&
  p.data.any (fun c => 'A' ≤ c && c ≤ 'Z') &&
  p.data.any (fun c => 'a' ≤ c && c ≤ 'z') &&
  p.data.any (fun c => '0' ≤ c && c ≤ '9') &&
  p.data.any (fun c => c ∈ ['!', '@', '#', '$', '%', '^', '&', '*'])

/-- The non-sensitive user projection returned on full login success. -/
structure PublicUser where
  id : Nat
  email : String
  username : String
  profile_picture : Option String
  completed_profile : Option Bool
deriving DecidableEq, Repr

/-- A JSON response body, with one optional field per key the handler
ever emits; absent keys are `none`. -/
structure Body where
  success : Bool
  error : Option String := none
  message : Option String := none
  redirect : Option String := none
  verification_required : Option Bool := none
  email_sent : Option Bool := none
  user : Option PublicUser := none
  session_expires : Option Nat := none
deriving DecidableEq, Repr

/-- `{ success: false, error: e }`. -/
def errBody (e : String) : Body := { success := false, error := some e }

/-- The parsed POST body. -/
structure Request where
  email : String
  password : String
  remember_me : Bool
  captcha_token : Option String
  google : Bool
  fingerprint : Option String
  verification_code : Option String
deriving DecidableEq, Repr

/-- Resolution of the handler's external effects: the clock, bcrypt,
the CAPTCHA network verdict, the freshly generated verification code and
session token, the device-fingerprint hash, and whether the verification
email sends. -/
structure Env where
  now : Nat
  bcryptCompare : String → String → Bool
  captchaNet : Bool
  freshCode : String
  freshToken : String
  fingerprintHash : String
  emailOk : Bool

/-- `verifyCaptcha(token, ip)` from lines 54-71: falsy token fails
immediately; otherwise the network verdict decides (fail-closed on error,
folded into `captchaNet`). -/
def verifyCaptcha (env : Env) (token : Option String) : Bool :=
  match token with
  | none => false
  | some t => if t = "" then false else env.captchaNet

/-- Outcome of a handler invocation: HTTP status, JSON body, optional
`Set-Cookie` header, post-state, and the number of bcrypt comparisons
executed while serving the request. -/
structure Result where
  status : Nat
  body : Body
  setCookie : Option String
  st : St
  bcryptCalls : Nat
deriving DecidableEq, Repr

/-- `upsert` on `pending_verifications` with `onConflict: 'email, fingerprint'`:
replace any row with the same (email, fingerprint) key. -/
def upsertPending (ps : List Pending) (p : Pending) : List Pending :=
  ps.filter (fun q => ¬(q.email = p.email ∧ q.fingerprint = p.fingerprint)) ++ [p]

/-- `.eq('email', e).eq('fingerprint', f).maybeSingle()` lookup. -/
def findPending (ps : List Pending) (e f : String) : Option Pending :=
  ps.find? (fun q => q.email = e ∧ q.fingerprint = f)

/-- `.delete().eq('email', e).eq('fingerprint', f)`. -/
def deletePending (ps : List Pending) (e f : String) : List Pending :=
  ps.filter (fun q => ¬(q.email = e ∧ q.fingerprint = f))

/-- Per-row effect of the `users` update on full login: the matching id
gets last_fingerprint, last_login and the online flag set. -/
def applyLogin (uid : Nat) (fp : String) (now : Nat) (u : User) : User :=
  if u.id = uid then
    { u with last_fingerprint := some fp, last_login := some now, online := true }
  else u

/-- The `users` update on full login (`.update(...).eq('id', user.id)`). -/
def updateUserLogin (us : List User) (uid : Nat) (fp : String) (now : Nat) :
    List User :=
  us.map (applyLogin uid fp now)

/-- The `Set-Cookie` value built at lines 440-447. -/
def cookieString (token : String) (expiresInDays : Nat) : String :=
  "__Host-session_secure=" ++ token ++ "; Path=/; HttpOnly; Secure; Max-Age=" ++
    toString (expiresInDays * 24 * 60 * 60) ++ "; SameSite=Strict"

/-- The main login handler (`src/unnamed/part_002` lines 141-472) on the
POST path with a parsed body, with store operations assumed to succeed.
Follows the source branch for branch. -/
def loginHandler (env : Env) (req : Request) (ip : String) (st : St) : Result :=
  if req.email = "" ∨ req.password = "" then
    ⟨400, errBody "Email and password are required", none, st, 0⟩
  else if req.google then
    ⟨200, { success := true, redirect := some "/api/auth/google" }, none, st, 0⟩
  else
    let key := ip ++ req.email
    let rl := checkRateLimit env.now key st.rate
    let st1 : St := { st with rate := rl.2 }
    if rl.1 = false then
      ⟨429, errBody "Too many login attempts. Please try again in 15 minutes.",
        none, st1, 0⟩
    else
      match st.users.find? (fun u => u.email = req.email) with
      | none =>
        -- dummy bcrypt comparison, logAttempt, randomDelay
        ⟨401, errBody "Invalid email or password", none,
          { st1 with rate := logAttempt env.now key st1.rate }, 1⟩
      | some u =>
        let pc := passwordToCheck u
        let realCalls := if pc = "" then 0 else 1
        let passwordValid := if pc = "" then false else env.bcryptCompare req.password pc
        if passwordValid = false then
          -- dummy bcrypt comparison, logAttempt, randomDelay
          ⟨401, errBody "Invalid email or password", none,
            { st1 with rate := logAttempt env.now key st1.rate }, realCalls + 1⟩
        else if u.suspended then
          ⟨403, errBody (suspensionMsg u), none, st1, realCalls⟩
        else if u.is_honeytoken then
          ⟨401, errBody "Invalid email or password", none,
            { st1 with rate := logAttempt env.now key st1.rate }, realCalls⟩
        else if u.verified = some false then
          ⟨403, errBody "Please verify your email address before logging in.",
            none, st1, realCalls⟩
        else if passwordStrongEnough req.password = false then
          ⟨400, errBody "Password does not meet security requirements. Must be 8+ characters with uppercase, lowercase, number, and special character.",
            none, st1, realCalls⟩
        else
          let fp := env.fingerprintHash
          if optTruthy req.verification_code = false then
            -- first pass: CAPTCHA then OTP issuance
            if verifyCaptcha env req.captcha_token = false then
              ⟨403, errBody "CAPTCHA verification failed. Please try again.",
                none, { st1 with rate := logAttempt env.now key st1.rate }, realCalls⟩
            else
              let newP := upsertPending st1.pendings
                ⟨req.email, fp, env.freshCode, env.now + 60 * 1000⟩
              let st2 : St := { st1 with pendings := newP }
              if env.emailOk = false then
                ⟨500, errBody "Failed to send verification email. Please try again.",
                  none, st2, realCalls⟩
              else
                ⟨200, { success := true,
                        verification_required := some true,
                        message := some "Verification code sent to your email. It expires in 1 minute.",
                        email_sent := some true }, none, st2, realCalls⟩
          else
            -- second pass: verify the emailed code
            match req.verification_code, findPending st1.pendings req.email fp with
            | some vc, some pending =>
              if pending.code ≠ vc then
                ⟨401, errBody "Invalid verification code", none, st1, realCalls⟩
              else if pending.expires_at < env.now then
                ⟨401, errBody "Verification code has expired. Please request a new one.",
                  none,
                  { st1 with pendings := deletePending st1.pendings req.email fp },
                  realCalls⟩
              else
                let delP := deletePending st1.pendings req.email fp
                let newU := updateUserLogin st1.users u.id fp env.now
                let st2 : St := { st1 with pendings := delP, users := newU }
                let expiresInDays := if req.remember_me then 90 else 1
                let expiresAt := env.now + expiresInDays * 24 * 60 * 60 * 1000
                let sess : Session :=
                  ⟨some u.id, req.email, env.freshToken, expiresAt, true⟩
                let st3 : St := { st2 with sessions := st2.sessions ++ [sess] }
                ⟨200, { success := true,
                        message := some "Login successful!",
                        user := some ⟨u.id, u.email, u.username,
                                      u.profile_picture, u.completed_profile⟩,
                        session_expires := some expiresAt },
                  some (cookieString env.freshToken expiresInDays), st3, realCalls⟩
            | _, none =>
              ⟨401, errBody "Invalid verification code", none, st1, realCalls⟩
            | none, some _ =>
              -- unreachable: optTruthy is true only on some
              ⟨401, errBody "Invalid verification code", none, st1, realCalls⟩

/-- `generateVerificationCode` from lines 124-127:
`Math.floor(100000 + Math.random() * 900000)`, with the random draw
`r ∈ [0,1)` made explicit as a rational parameter. -/
def generateVerificationCode (r : ℚ) : Nat :=
  (⌊(100000 : ℚ) + r * 900000⌋).toNat

/-- Number of `pending_verifications` rows with the given composite key. -/
def pendKeyCount (ps : List Pending) (e f : String) : Nat :=
  (ps.filter (fun q => q.email = e ∧ q.fingerprint = f)).length

/-- At most one live record per (email, fingerprint) pair. -/
def PendInv (ps : List Pending) : Prop := ∀ e f, pendKeyCount ps e f ≤ 1

/-- Lowercase-hex digit for a value below 16 (`toString('hex')` alphabet). -/
def hexDigit (n : Nat) : Char :=
  if n < 10 then Char.ofNat (48 + n) else Char.ofNat (87 + n)

/-- Two lowercase-hex characters of one byte. -/
def byteToHex (b : Nat) : List Char := [hexDigit (b / 16), hexDigit (b % 16)]

/-- Node `Buffer.toString('hex')` over a byte list. -/
def hexEncode (bs : List Nat) : String := ⟨(bs.map byteToHex).flatten⟩

/-- Value of a lowercase-hex character. -/
def hexDigitVal (c : Char) : Nat :=
  if 97 ≤ c.toNat then c.toNat - 87 else c.toNat - 48

/-- Inverse of `hexEncode`, pairing characters into bytes. -/
def hexDecode : List Char → List Nat
  | c1 :: c2 :: rest => (16 * hexDigitVal c1 + hexDigitVal c2) :: hexDecode rest
  | _ => []

/-- Character class of `toString('hex')` output. -/
def isLowerHex (c : Char) : Bool :=
  ('0' ≤ c && c ≤ '9') || ('a' ≤ c && c ≤ 'f')

/-- The cryptographic primitives `generateEncryptedToken` calls, abstracted
as byte-list-valued collaborators: `crypto.randomBytes`, `crypto.scryptSync`,
AES-256-GCM encryption returning (ciphertext bytes, auth-tag bytes), and the
fresh `uuidv4()` plaintext. -/
structure TokenCrypto where
  randomBytes : Nat → List Nat
  scryptSync : String → String → Nat → List Nat
  aesGcmEncrypt : List Nat → List Nat → String → List Nat × List Nat
  newUuid : String

/-- `generateEncryptedToken` from lines 90-98: 16-byte random IV, key
`scryptSync(secret, 'salt', 32)`, AES-256-GCM over a fresh uuid, output
`iv_hex:tag_hex:ciphertext_hex`. -/
def generateEncryptedToken (c : TokenCrypto) (secret : String) : String :=
  let iv := c.randomBytes 16
  let key := c.scryptSync secret "salt" 32
  let enc := c.aesGcmEncrypt key iv c.newUuid
  hexEncode iv ++ ":" ++ hexEncode enc.2 ++ ":" ++ hexEncode enc.1

/-! Concrete fixtures used by witnesses and counterexamples. -/

/-- A verified, unsuspended user with bcrypt hash `hashA`. -/
def userA : User :=
  ⟨1, "a@b.c", "alice", some true, false, none, false, false, 0, none,
    some "hashA", none, none, some true, none, false⟩

/-- A bcrypt model accepting exactly the pair (`Aa1!aaaa`, `hashA`). -/
def cmpA : String → String → Bool := fun p h => p == "Aa1!aaaa" && h == "hashA"

/-- A fully cooperative environment at time 10^9. -/
def envA : Env := ⟨1000000000, cmpA, true, "123456", "tok", "fp1", true⟩

/-- Fresh state holding only `userA`. -/
def stA : St := ⟨[], [userA], [], []⟩

/-- First-pass request with correct credentials and a CAPTCHA token. -/
def reqA : Request := ⟨"a@b.c", "Aa1!aaaa", false, some "cap", false, none, none⟩

/-- The cache update the allow path of `checkRateLimit` performs: prune the
history to the window and append the current time. -/
def recordAllow (now : Nat) (key : String) (cache : List (String × List Nat)) :
    List (String × List Nat) :=
  setRate cache key ((getRate cache key).filter (fun t => now - t < windowMs) ++ [now])

/-- A suspended honeytoken account. -/
def userHT : User :=
  { userA with
      suspended := true
      suspension_reason := some "rule violation"
      is_honeytoken := true }

/-- A suspended (non-honeytoken) account. -/
def userSusp : User := { userA with suspended := true }

/-- An unsuspended honeytoken account. -/
def userDecoy : User := { userA with is_honeytoken := true }

/-- A pending verification for `userA` issued at `envA.now`. -/
def pendingA : Pending := ⟨"a@b.c", "fp1", "123456", 1000060000⟩

/-- Second-pass request submitting the code of `pendingA`. -/
def reqB : Request := { reqA with verification_code := some "123456" }

/-- State with `userA` and the live `pendingA` record. -/
def stB : St := ⟨[], [userA], [pendingA], []⟩

/-- A pending verification whose expiry (999999000) precedes `envA.now`. -/
def pendingExp : Pending := ⟨"a@b.c", "fp1", "123456", 999999000⟩

/-- State with `userA` and the expired `pendingExp` record. -/
def stExp : St := ⟨[], [userA], [pendingExp], []⟩

/-- Concrete crypto primitives for the token-format witness. -/
def cryptoW : TokenCrypto :=
  ⟨fun n => List.replicate n 171,
   fun _ _ k => List.replicate k 7,
   fun _ _ _ => ([17, 240], [5]),
   "uuid-w"⟩

/-! Helper lemmas about the rate limiter. -/

theorem checkRateLimit_denies {now : Nat} {key : String} {cache : List (String × List Nat)}
    (h : maxAttempts ≤ ((getRate cache key).filter (fun t => now - t < windowMs)).length) :
    checkRateLimit now key cache = (false, cache) := by
  simp [checkRateLimit, h]

theorem checkRateLimit_allows {now : Nat} {key : String} {cache : List (String × List Nat)}
    (h : ((getRate cache key).filter (fun t => now - t < windowMs)).length < maxAttempts) :
    checkRateLimit now key cache =
      (true, setRate cache key
        ((getRate cache key).filter (fun t => now - t < windowMs) ++ [now])) := by
  simp [checkRateLimit, Nat.not_le.mpr h]

/-! Helper lemmas about the stores and the full-login flow. -/

theorem findPending_deletePending (ps : List Pending) (e f : String) :
    findPending (deletePending ps e f) e f = none := by
  simp only [findPending, deletePending, List.find?_eq_none, List.mem_filter]
  intro q hq
  simp at hq ⊢
  tauto

theorem getRate_setRate_self (cache : List (String × List Nat)) (k : String)
    (v : List Nat) : getRate (setRate cache k v) k = v := by
  simp [getRate, setRate, List.find?_cons]

theorem getRate_recordAllow (now : Nat) (key : String)
    (cache : List (String × List Nat)) :
    getRate (recordAllow now key cache) key =
      (getRate cache key).filter (fun t => now - t < windowMs) ++ [now] :=
  getRate_setRate_self cache key _

theorem filter_recent_append_now (now : Nat) (l : List Nat) :
    (l.filter (fun t => now - t < windowMs) ++ [now]).filter
        (fun t => now - t < windowMs) =
      l.filter (fun t => now - t < windowMs) ++ [now] := by
  rw [List.filter_append, List.filter_filter]
  simp [windowMs]

theorem applyLogin_email (uid : Nat) (fp : String) (now : Nat) (u : User) :
    (applyLogin uid fp now u).email = u.email := by
  unfold applyLogin; split <;> rfl

theorem applyLogin_suspended (uid : Nat) (fp : String) (now : Nat) (u : User) :
    (applyLogin uid fp now u).suspended = u.suspended := by
  unfold applyLogin; split <;> rfl

theorem applyLogin_honeytoken (uid : Nat) (fp : String) (now : Nat) (u : User) :
    (applyLogin uid fp now u).is_honeytoken = u.is_honeytoken := by
  unfold applyLogin; split <;> rfl

theorem applyLogin_verified (uid : Nat) (fp : String) (now : Nat) (u : User) :
    (applyLogin uid fp now u).verified = u.verified := by
  unfold applyLogin; split <;> rfl

theorem applyLogin_passwordToCheck (uid : Nat) (fp : String) (now : Nat) (u : User) :
    passwordToCheck (applyLogin uid fp now u) = passwordToCheck u := by
  unfold applyLogin; split <;> rfl

theorem find?_updateUserLogin (us : List User) (uid : Nat) (fp : String)
    (now : Nat) (e : String) :
    (updateUserLogin us uid fp now).find? (fun v => v.email = e) =
      (us.find? (fun v => v.email = e)).map (applyLogin uid fp now) := by
  unfold updateUserLogin
  rw [List.find?_map]
  have hpf : ((fun v => decide (v.email = e)) ∘ applyLogin uid fp now) =
      (fun v : User => decide (v.email = e)) := by
    funext x
    simp [Function.comp, applyLogin_email]
  rw [hpf]

theorem loginHandler_full_success (env : Env) (req : Request) (ip : String) (st : St)
    (u : User) (p : Pending) (vc : String)
    (he : req.email ≠ "") (hp : req.password ≠ "") (hg : req.google = false)
    (hlt : ((getRate st.rate (ip ++ req.email)).filter
      (fun t => env.now - t < windowMs)).length < maxAttempts)
    (hfind : st.users.find? (fun v => v.email = req.email) = some u)
    (hpc : passwordToCheck u ≠ "")
    (hcmp : env.bcryptCompare req.password (passwordToCheck u) = true)
    (hsusp : u.suspended = false) (hht : u.is_honeytoken = false)
    (hver : u.verified ≠ some false)
    (hstr : passwordStrongEnough req.password = true)
    (hvc : req.verification_code = some vc) (hvcne : vc ≠ "")
    (hfindp : findPending st.pendings req.email env.fingerprintHash = some p)
    (hcode : p.code = vc) (hexp : ¬ p.expires_at < env.now) :
    loginHandler env req ip st =
      ⟨200,
        { success := true
          message := some "Login successful!"
          user := some ⟨u.id, u.email, u.username, u.profile_picture, u.completed_profile⟩
          session_expires := some (env.now + (if req.remember_me then 90 else 1) * 86400000) },
        some (cookieString env.freshToken (if req.remember_me then 90 else 1)),
        ⟨recordAllow env.now (ip ++ req.email) st.rate,
         updateUserLogin st.users u.id env.fingerprintHash env.now,
         deletePending st.pendings req.email env.fingerprintHash,
         st.sessions ++ [⟨some u.id, req.email, env.freshToken,
           env.now + (if req.remember_me then 90 else 1) * 86400000, true⟩]⟩,
        1⟩ := by
  simp [loginHandler, he, hp, hg, checkRateLimit_allows hlt, recordAllow, hfind, hpc,
    hcmp, hsusp, hht, hver, hstr, hvc, optTruthy, hvcne, hfindp, hcode, hexp]

theorem loginHandler_code_not_found (env : Env) (req : Request) (ip : String)
    (st : St) (u : User) (vc : String)
    (he : req.email ≠ "") (hp : req.password ≠ "") (hg : req.google = false)
    (hlt : ((getRate st.rate (ip ++ req.email)).filter
      (fun t => env.now - t < windowMs)).length < maxAttempts)
    (hfind : st.users.find? (fun v => v.email = req.email) = some u)
    (hpc : passwordToCheck u ≠ "")
    (hcmp : env.bcryptCompare req.password (passwordToCheck u) = true)
    (hsusp : u.suspended = false) (hht : u.is_honeytoken = false)
    (hver : u.verified ≠ some false)
    (hstr : passwordStrongEnough req.password = true)
    (hvc : req.verification_code = some vc) (hvcne : vc ≠ "")
    (hnone : findPending st.pendings req.email env.fingerprintHash = none) :
    loginHandler env req ip st =
      ⟨401, errBody "Invalid verification code", none,
        { st with rate := recordAllow env.now (ip ++ req.email) st.rate }, 1⟩ := by
  simp [loginHandler, he, hp, hg, checkRateLimit_allows hlt, recordAllow, hfind, hpc,
    hcmp, hsusp, hht, hver, hstr, hvc, optTruthy, hvcne, hnone]

theorem pendInv_upsert (ps : List Pending) (q : Pending) (h : PendInv ps) :
    PendInv (upsertPending ps q) := by
  intro e f
  unfold pendKeyCount upsertPending
  rw [List.filter_append, List.length_append]
  by_cases hk : q.email = e ∧ q.fingerprint = f
  · have h0 : ((ps.filter (fun x => ¬(x.email = q.email ∧ x.fingerprint = q.fingerprint))).filter
        (fun x => x.email = e ∧ x.fingerprint = f)) = [] := by
      rw [List.filter_filter, List.filter_eq_nil_iff]
      intro a _
      simp only [Bool.and_eq_true, decide_eq_true_eq]
      rintro ⟨⟨ha1, ha2⟩, hno⟩
      exact hno ⟨ha1.trans hk.1.symm, ha2.trans hk.2.symm⟩
    rw [h0]
    simp [hk.1, hk.2]
  · have h1 : ([q].filter (fun x => x.email = e ∧ x.fingerprint = f)) = [] := by
      simp only [List.filter_eq_nil_iff]
      intro a ha
      simp only [List.mem_singleton] at ha
      subst ha
      simpa using hk
    rw [h1]
    have hsub : ((ps.filter (fun x => ¬(x.email = q.email ∧ x.fingerprint = q.fingerprint))).filter
        (fun x => x.email = e ∧ x.fingerprint = f)).length ≤
        (ps.filter (fun x => x.email = e ∧ x.fingerprint = f)).length :=
      ((List.filter_sublist ps).filter _).length_le
    simpa using hsub.trans (h e f)

theorem pendInv_foldl (seq : List Pending) :
    ∀ ps, PendInv ps → PendInv (seq.foldl upsertPending ps) := by
  induction seq with
  | nil => intro ps h; exact h
  | cons a tl ih => intro ps h; exact ih _ (pendInv_upsert ps a h)

theorem findPending_upsert (ps : List Pending) (q : Pending) :
    findPending (upsertPending ps q) q.email q.fingerprint = some q := by
  unfold findPending upsertPending
  rw [List.find?_append]
  have h0 : (ps.filter (fun x => ¬(x.email = q.email ∧ x.fingerprint = q.fingerprint))).find?
      (fun x => x.email = q.email ∧ x.fingerprint = q.fingerprint) = none := by
    rw [List.find?_eq_none]
    intro a ha
    simp only [List.mem_filter] at ha
    simp only [decide_eq_true_eq]
    have h2 := ha.2
    simp at h2
    tauto
  rw [h0]
  simp

theorem generateVerificationCode_range (r : ℚ) (h0 : 0 ≤ r) (hr1 : r < 1) :
    100000 ≤ generateVerificationCode r ∧ generateVerificationCode r ≤ 999999 := by
  unfold generateVerificationCode
  have ha : (100000 : ℤ) ≤ ⌊(100000 : ℚ) + r * 900000⌋ := by
    apply Int.le_floor.mpr
    push_cast
    nlinarith
  have hb : ⌊(100000 : ℚ) + r * 900000⌋ < 1000000 := by
    apply Int.floor_lt.mpr
    push_cast
    nlinarith [hr1]
  omega

theorem generateVerificationCode_uniform (r : ℚ) (n : Nat) (h0 : 0 ≤ r) (h1 : r < 1)
    (hn1 : 100000 ≤ n) (hn2 : n ≤ 999999) :
    (generateVerificationCode r = n ↔
      ((n : ℚ) - 100000) / 900000 ≤ r ∧ r < ((n : ℚ) - 99999) / 900000) := by
  unfold generateVerificationCode
  have hfl0 : (0 : ℤ) ≤ ⌊(100000 : ℚ) + r * 900000⌋ := by
    apply Int.le_floor.mpr
    push_cast
    nlinarith
  constructor
  · intro h
    have hfn : ⌊(100000 : ℚ) + r * 900000⌋ = (n : ℤ) := by omega
    rcases Int.floor_eq_iff.mp hfn with ⟨ha, hb⟩
    push_cast at ha hb
    constructor
    · rw [div_le_iff₀ (by norm_num : (0:ℚ) < 900000)]
      linarith
    · rw [lt_div_iff₀ (by norm_num : (0:ℚ) < 900000)]
      linarith
  · rintro ⟨ha, hb⟩
    rw [div_le_iff₀ (by norm_num : (0:ℚ) < 900000)] at ha
    rw [lt_div_iff₀ (by norm_num : (0:ℚ) < 900000)] at hb
    have hfn : ⌊(100000 : ℚ) + r * 900000⌋ = (n : ℤ) := by
      apply Int.floor_eq_iff.mpr
      constructor
      · push_cast
        linarith
      · push_cast
        linarith
    omega

theorem hexDigit_lower : ∀ n, n < 16 → isLowerHex (hexDigit n) = true := by decide

theorem hexDigitVal_hexDigit : ∀ n, n < 16 → hexDigitVal (hexDigit n) = n := by decide

theorem isLowerHex_ne_colon : ∀ ch, isLowerHex ch = true → ch ≠ ':' := by
  intro ch h hc
  rw [hc] at h
  exact absurd h (by decide)

theorem byteToHex_lower (b : Nat) (hb : b < 256) :
    ∀ ch ∈ byteToHex b, isLowerHex ch = true := by
  intro ch hch
  have h1 : b / 16 < 16 := Nat.div_lt_of_lt_mul hb
  have h2 : b % 16 < 16 := Nat.mod_lt b (by norm_num)
  simp only [byteToHex, List.mem_cons, List.mem_singleton, List.not_mem_nil] at hch
  rcases hch with h | h | h
  · exact h ▸ hexDigit_lower _ h1
  · exact h ▸ hexDigit_lower _ h2
  · exact absurd h (by simp)

theorem hexEncode_lower (bs : List Nat) (h : ∀ b ∈ bs, b < 256) :
    ∀ ch ∈ (hexEncode bs).data, isLowerHex ch = true := by
  intro ch hch
  simp only [hexEncode, List.mem_flatten, List.mem_map] at hch
  rcases hch with ⟨l, ⟨b, hb, rfl⟩, hchl⟩
  exact byteToHex_lower b (h b hb) ch hchl

theorem hexEncode_length (bs : List Nat) :
    (hexEncode bs).data.length = 2 * bs.length := by
  induction bs with
  | nil => rfl
  | cons b tl ih =>
      show (byteToHex b ++ (tl.map byteToHex).flatten).length = 2 * (tl.length + 1)
      rw [List.length_append]
      have h2 : (byteToHex b).length = 2 := rfl
      have ihh : ((tl.map byteToHex).flatten).length = 2 * tl.length := ih
      omega

theorem hexDecode_hexEncode (bs : List Nat) (h : ∀ b ∈ bs, b < 256) :
    hexDecode (hexEncode bs).data = bs := by
  induction bs with
  | nil => rfl
  | cons b tl ih =>
      have hb : b < 256 := h b (List.mem_cons_self b tl)
      have h1 : b / 16 < 16 := Nat.div_lt_of_lt_mul hb
      have h2 : b % 16 < 16 := Nat.mod_lt b (by norm_num)
      have htl : hexDecode (hexEncode tl).data = tl :=
        ih (fun x hx => h x (List.mem_cons_of_mem b hx))
      show hexDecode (byteToHex b ++ (tl.map byteToHex).flatten) = b :: tl
      simp only [byteToHex, List.cons_append, List.nil_append, hexDecode]
      rw [hexDigitVal_hexDigit _ h1, hexDigitVal_hexDigit _ h2]
      have hbb : 16 * (b / 16) + b % 16 = b := by omega
      rw [hbb]
      exact congrArg (fun x => b :: x) htl

/-! Claim theorems. -/

/-- C10: for every POST body with non-empty email and password and a truthy
`google` field, the handler immediately returns 200 with
`{success:true, redirect:'/api/auth/google'}`, leaving the entire state
(rate-limit cache, users, pending verifications, sessions) unchanged,
setting no cookie and executing no bcrypt comparison. -/
theorem c10_google_bypass (env : Env) (req : Request) (ip : String) (st : St)
    (he : req.email ≠ "") (hp : req.password ≠ "") (hg : req.google = true) :
    loginHandler env req ip st =
      ⟨200, { success := true, redirect := some "/api/auth/google" }, none, st, 0⟩ := by
  simp [loginHandler, he, hp, hg]

/-- Witness for C10 at a concrete request. -/
theorem c10_google_bypass_witness :
    loginHandler envA { reqA with google := true } "ip" stA =
      ⟨200, { success := true, redirect := some "/api/auth/google" }, none, stA, 0⟩ :=
  c10_google_bypass envA { reqA with google := true } "ip" stA
    (by decide) (by decide) rfl

/-- C3: the rate limiter denies exactly when at least 5 recorded timestamps
fall within the trailing 15-minute window (older entries are ignored); a
request whose key has 5 or more in-window timestamps is answered 429 with
the rate-limit error whatever the credentials resolve to; and once every
recorded timestamp is at least 15 minutes old the check allows again. -/
theorem c3_rate_limit_window :
    (∀ (now : Nat) (key : String) (cache : List (String × List Nat)),
      (checkRateLimit now key cache).1 = false ↔
        maxAttempts ≤ ((getRate cache key).filter (fun t => now - t < windowMs)).length) ∧
    (∀ (env : Env) (req : Request) (ip : String) (st : St),
      req.email ≠ "" → req.password ≠ "" → req.google = false →
      maxAttempts ≤ ((getRate st.rate (ip ++ req.email)).filter
        (fun t => env.now - t < windowMs)).length →
      loginHandler env req ip st =
        ⟨429, errBody "Too many login attempts. Please try again in 15 minutes.",
          none, st, 0⟩) ∧
    (∀ (now : Nat) (key : String) (cache : List (String × List Nat)),
      (∀ t ∈ getRate cache key, windowMs ≤ now - t) →
      (checkRateLimit now key cache).1 = true) := by
  refine ⟨?_, ?_, ?_⟩
  · intro now key cache
    simp only [checkRateLimit]
    split
    · simpa using ‹_›
    · simp_all
  · intro env req ip st he hp hg h
    simp [loginHandler, he, hp, hg, checkRateLimit_denies h]
  · intro now key cache h
    have : (getRate cache key).filter (fun t => now - t < windowMs) = [] := by
      rw [List.filter_eq_nil_iff]
      intro t ht
      simpa using Nat.not_lt.mpr (h t ht)
    simp [checkRateLimit, this, maxAttempts]

/-- Witness for C3: a key with five in-window timestamps is denied and
answered 429, and a key whose single timestamp is ancient is allowed. -/
theorem c3_rate_limit_window_witness :
    (checkRateLimit 1000000 "k" [("k", [200000, 300000, 400000, 500000, 600000])]).1 = false ∧
    loginHandler envA reqA "ip"
      { stA with rate := [("ipa@b.c", [999999996, 999999997, 999999998, 999999999, 1000000000])] } =
      ⟨429, errBody "Too many login attempts. Please try again in 15 minutes.", none,
        { stA with rate := [("ipa@b.c", [999999996, 999999997, 999999998, 999999999, 1000000000])] }, 0⟩ ∧
    (checkRateLimit 1000000000 "k" [("k", [17])]).1 = true :=
  ⟨(c3_rate_limit_window.1 1000000 "k" _).mpr (by decide),
   c3_rate_limit_window.2.1 envA reqA "ip" _ (by decide) (by decide) rfl (by decide),
   c3_rate_limit_window.2.2 1000000000 "k" _ (by decide)⟩

/-- C1 counterexample: for an existing user whose stored hash does not
match the submitted password, the request executes TWO bcrypt comparisons
(one against the stored hash, then the dummy-hash comparison), not exactly
one. -/
theorem c1_single_comparison_counterexample :
    (loginHandler envA { reqA with password := "Bb2@bbbb" } "ip" stA).bcryptCalls = 2 ∧
    ¬(loginHandler envA { reqA with password := "Bb2@bbbb" } "ip" stA).bcryptCalls = 1 := by
  decide

/-- C1 (amended): on every request that reaches credential verification,
at least one bcrypt comparison runs; it is exactly one when no user is
found (dummy hash), when the found user has no stored hash (dummy hash),
or when the stored-hash comparison succeeds, and exactly two (stored hash,
then dummy hash) when a user with a non-empty stored hash is found and
the comparison fails. -/
theorem c1_comparison_count (env : Env) (req : Request) (ip : String) (st : St)
    (he : req.email ≠ "") (hp : req.password ≠ "") (hg : req.google = false)
    (hallow : (checkRateLimit env.now (ip ++ req.email) st.rate).1 = true) :
    (st.users.find? (fun u => u.email = req.email) = none →
      (loginHandler env req ip st).bcryptCalls = 1) ∧
    (∀ u, st.users.find? (fun v => v.email = req.email) = some u →
      ((passwordToCheck u = "" → (loginHandler env req ip st).bcryptCalls = 1) ∧
       (passwordToCheck u ≠ "" →
         env.bcryptCompare req.password (passwordToCheck u) = true →
         (loginHandler env req ip st).bcryptCalls = 1) ∧
       (passwordToCheck u ≠ "" →
         env.bcryptCompare req.password (passwordToCheck u) = false →
         (loginHandler env req ip st).bcryptCalls = 2))) := by
  refine ⟨?_, ?_⟩
  · intro hfind
    simp [loginHandler, he, hp, hg, hallow, hfind]
  · intro u hfind
    refine ⟨?_, ?_, ?_⟩
    · intro hpc
      simp [loginHandler, he, hp, hg, hallow, hfind, hpc]
    · intro hpc hcmp
      simp [loginHandler, he, hp, hg, hallow, hfind, hpc, hcmp]
      repeat' split
      all_goals rfl
    · intro hpc hcmp
      simp [loginHandler, he, hp, hg, hallow, hfind, hpc, hcmp]

/-- Witness for C1 (amended): a matching password yields exactly one
comparison. -/
theorem c1_comparison_count_witness :
    (loginHandler envA reqA "ip" stA).bcryptCalls = 1 :=
  ((c1_comparison_count envA reqA "ip" stA (by decide) (by decide) rfl
    (by decide)).2 userA (by decide)).2.1 (by decide) (by decide)

/-- C2 counterexample: a honeytoken-flagged user that is also suspended
gets, with the correct password, a 403 with the suspension reason, not the
generic 401 invalid-credentials response. -/
theorem c2_indistinguishable_counterexample :
    (loginHandler envA reqA "ip" { stA with users := [userHT] }).status = 403 ∧
    (loginHandler envA reqA "ip" { stA with users := [userHT] }).body ≠
      errBody "Invalid email or password" := by
  decide

/-- C2 (amended): the unknown-email case, the wrong-password case for an
existing non-suspended user, and the correct-password case for a
NON-SUSPENDED honeytoken user all produce the same response: HTTP 401,
body `{success:false, error:'Invalid email or password'}`, no cookie. -/
theorem c2_indistinguishable_responses :
    (∀ (env : Env) (req : Request) (ip : String) (st : St),
      req.email ≠ "" → req.password ≠ "" → req.google = false →
      (checkRateLimit env.now (ip ++ req.email) st.rate).1 = true →
      st.users.find? (fun v => v.email = req.email) = none →
      (loginHandler env req ip st).status = 401 ∧
      (loginHandler env req ip st).body = errBody "Invalid email or password" ∧
      (loginHandler env req ip st).setCookie = none) ∧
    (∀ (env : Env) (req : Request) (ip : String) (st : St) (u : User),
      req.email ≠ "" → req.password ≠ "" → req.google = false →
      (checkRateLimit env.now (ip ++ req.email) st.rate).1 = true →
      st.users.find? (fun v => v.email = req.email) = some u →
      u.suspended = false →
      passwordToCheck u ≠ "" →
      env.bcryptCompare req.password (passwordToCheck u) = false →
      (loginHandler env req ip st).status = 401 ∧
      (loginHandler env req ip st).body = errBody "Invalid email or password" ∧
      (loginHandler env req ip st).setCookie = none) ∧
    (∀ (env : Env) (req : Request) (ip : String) (st : St) (u : User),
      req.email ≠ "" → req.password ≠ "" → req.google = false →
      (checkRateLimit env.now (ip ++ req.email) st.rate).1 = true →
      st.users.find? (fun v => v.email = req.email) = some u →
      passwordToCheck u ≠ "" →
      env.bcryptCompare req.password (passwordToCheck u) = true →
      u.suspended = false →
      u.is_honeytoken = true →
      (loginHandler env req ip st).status = 401 ∧
      (loginHandler env req ip st).body = errBody "Invalid email or password" ∧
      (loginHandler env req ip st).setCookie = none) := by
  refine ⟨?_, ?_, ?_⟩
  · intro env req ip st he hp hg hallow hfind
    simp [loginHandler, he, hp, hg, hallow, hfind]
  · intro env req ip st u he hp hg hallow hfind hsusp hpc hcmp
    simp [loginHandler, he, hp, hg, hallow, hfind, hpc, hcmp]
  · intro env req ip st u he hp hg hallow hfind hpc hcmp hsusp hht
    simp [loginHandler, he, hp, hg, hallow, hfind, hpc, hcmp, hsusp, hht]

/-- Witness for C2 (amended): the unsuspended-honeytoken branch answered
401 with the generic body at a concrete input. -/
theorem c2_indistinguishable_responses_witness :
    (loginHandler envA reqA "ip" { stA with users := [userDecoy] }).status = 401 ∧
    (loginHandler envA reqA "ip" { stA with users := [userDecoy] }).body =
      errBody "Invalid email or password" ∧
    (loginHandler envA reqA "ip" { stA with users := [userDecoy] }).setCookie = none :=
  c2_indistinguishable_responses.2.2 envA reqA "ip" { stA with users := [userDecoy] }
    userDecoy (by decide) (by decide) rfl (by decide) (by decide) (by decide)
    (by decide) (by decide) (by decide)

/-- C4 counterexample: on a request that passes the rate-limit check and
then exits on the suspended-account branch, the attempt history for the
key is NOT unchanged: the allow check itself appended the current
timestamp. -/
theorem c4_no_record_counterexample :
    (loginHandler envA reqA "ip" { stA with users := [userSusp] }).status = 403 ∧
    getRate (loginHandler envA reqA "ip" { stA with users := [userSusp] }).st.rate
        "ipa@b.c" ≠
      getRate ({ stA with users := [userSusp] } : St).rate "ipa@b.c" := by
  decide

/-- C4 (amended): a passing allow check records the attempt itself
(pruning the history to the window and appending the current timestamp);
the suspended branch adds no further record and leaves users, pending
verifications and sessions untouched, so the post-state is exactly the
pre-state with that one cache update. -/
theorem c4_suspended_rate_effect (env : Env) (req : Request) (ip : String) (st : St)
    (u : User)
    (he : req.email ≠ "") (hp : req.password ≠ "") (hg : req.google = false)
    (hfind : st.users.find? (fun v => v.email = req.email) = some u)
    (hpc : passwordToCheck u ≠ "")
    (hcmp : env.bcryptCompare req.password (passwordToCheck u) = true)
    (hsusp : u.suspended = true)
    (hlt : ((getRate st.rate (ip ++ req.email)).filter
      (fun t => env.now - t < windowMs)).length < maxAttempts) :
    loginHandler env req ip st =
      ⟨403, errBody (suspensionMsg u), none,
        { st with rate := recordAllow env.now (ip ++ req.email) st.rate }, 1⟩ := by
  simp [loginHandler, he, hp, hg, hfind, hpc, hcmp, hsusp, recordAllow,
    checkRateLimit_allows hlt]

/-- Witness for C4 (amended) at a concrete suspended user. -/
theorem c4_suspended_rate_effect_witness :
    loginHandler envA reqA "ip" { stA with users := [userSusp] } =
      ⟨403, errBody (suspensionMsg userSusp), none,
        { ({ stA with users := [userSusp] } : St) with
            rate := recordAllow envA.now "ipa@b.c" stA.rate }, 1⟩ :=
  c4_suspended_rate_effect envA reqA "ip" { stA with users := [userSusp] } userSusp
    (by decide) (by decide) rfl (by decide) (by decide) (by decide) rfl (by decide)

/-- C5: when the OTP check finds a pending record for (email, fingerprint)
whose code equals the submitted code and whose expiry has not passed, the
login succeeds (200), the record is deleted as part of the check, and
submitting the same correct code again on the resulting state finds no
record and fails 401 with the invalid-verification-code error. -/
theorem c5_otp_single_use (env : Env) (req : Request) (ip : String) (st : St)
    (u : User) (p : Pending) (vc : String)
    (he : req.email ≠ "") (hp : req.password ≠ "") (hg : req.google = false)
    (hrl : ((getRate st.rate (ip ++ req.email)).filter
      (fun t => env.now - t < windowMs)).length + 1 < maxAttempts)
    (hfind : st.users.find? (fun v => v.email = req.email) = some u)
    (hpc : passwordToCheck u ≠ "")
    (hcmp : env.bcryptCompare req.password (passwordToCheck u) = true)
    (hsusp : u.suspended = false) (hht : u.is_honeytoken = false)
    (hver : u.verified ≠ some false)
    (hstr : passwordStrongEnough req.password = true)
    (hvc : req.verification_code = some vc) (hvcne : vc ≠ "")
    (hfindp : findPending st.pendings req.email env.fingerprintHash = some p)
    (hcode : p.code = vc) (hexp : ¬ p.expires_at < env.now) :
    (loginHandler env req ip st).status = 200 ∧
    (loginHandler env req ip st).body.success = true ∧
    findPending (loginHandler env req ip st).st.pendings req.email
      env.fingerprintHash = none ∧
    (loginHandler env req ip (loginHandler env req ip st).st).status = 401 ∧
    (loginHandler env req ip (loginHandler env req ip st).st).body =
      errBody "Invalid verification code" := by
  have hlt : ((getRate st.rate (ip ++ req.email)).filter
      (fun t => env.now - t < windowMs)).length < maxAttempts :=
    Nat.lt_of_succ_lt hrl
  have h1 := loginHandler_full_success env req ip st u p vc he hp hg hlt hfind hpc
    hcmp hsusp hht hver hstr hvc hvcne hfindp hcode hexp
  have hlt2 : ((getRate (recordAllow env.now (ip ++ req.email) st.rate)
      (ip ++ req.email)).filter (fun t => env.now - t < windowMs)).length
      < maxAttempts := by
    rw [getRate_recordAllow, filter_recent_append_now, List.length_append]
    simpa using hrl
  have hfind2 : (updateUserLogin st.users u.id env.fingerprintHash env.now).find?
      (fun v => v.email = req.email) =
      some (applyLogin u.id env.fingerprintHash env.now u) := by
    rw [find?_updateUserLogin, hfind]; rfl
  have hpc2 : passwordToCheck (applyLogin u.id env.fingerprintHash env.now u) ≠ "" := by
    rw [applyLogin_passwordToCheck]; exact hpc
  have hcmp2 : env.bcryptCompare req.password
      (passwordToCheck (applyLogin u.id env.fingerprintHash env.now u)) = true := by
    rw [applyLogin_passwordToCheck]; exact hcmp
  have hsusp2 : (applyLogin u.id env.fingerprintHash env.now u).suspended = false := by
    rw [applyLogin_suspended]; exact hsusp
  have hht2 : (applyLogin u.id env.fingerprintHash env.now u).is_honeytoken = false := by
    rw [applyLogin_honeytoken]; exact hht
  have hver2 : (applyLogin u.id env.fingerprintHash env.now u).verified ≠ some false := by
    rw [applyLogin_verified]; exact hver
  have hnone2 := findPending_deletePending st.pendings req.email env.fingerprintHash
  have h2 := loginHandler_code_not_found env req ip
    ⟨recordAllow env.now (ip ++ req.email) st.rate,
     updateUserLogin st.users u.id env.fingerprintHash env.now,
     deletePending st.pendings req.email env.fingerprintHash,
     st.sessions ++ [⟨some u.id, req.email, env.freshToken,
       env.now + (if req.remember_me then 90 else 1) * 86400000, true⟩]⟩
    (applyLogin u.id env.fingerprintHash env.now u) vc he hp hg hlt2 hfind2 hpc2
    hcmp2 hsusp2 hht2 hver2 hstr hvc hvcne hnone2
  have hstA : (loginHandler env req ip st).st =
      ⟨recordAllow env.now (ip ++ req.email) st.rate,
       updateUserLogin st.users u.id env.fingerprintHash env.now,
       deletePending st.pendings req.email env.fingerprintHash,
       st.sessions ++ [⟨some u.id, req.email, env.freshToken,
         env.now + (if req.remember_me then 90 else 1) * 86400000, true⟩]⟩ := by
    rw [h1]
  refine ⟨by rw [h1], by rw [h1], ?_, ?_, ?_⟩
  · rw [hstA]
    exact hnone2
  · rw [hstA, h2]
  · rw [hstA, h2]

/-- Witness for C5 at a concrete user, pending record and replayed code. -/
theorem c5_otp_single_use_witness :
    (loginHandler envA reqB "ip" stB).status = 200 ∧
    (loginHandler envA reqB "ip" stB).body.success = true ∧
    findPending (loginHandler envA reqB "ip" stB).st.pendings reqB.email
      envA.fingerprintHash = none ∧
    (loginHandler envA reqB "ip" (loginHandler envA reqB "ip" stB).st).status = 401 ∧
    (loginHandler envA reqB "ip" (loginHandler envA reqB "ip" stB).st).body =
      errBody "Invalid verification code" :=
  c5_otp_single_use envA reqB "ip" stB userA pendingA "123456"
    (by decide) (by decide) rfl (by decide) (by decide) (by decide) (by decide)
    (by decide) (by decide) (by decide) (by decide) rfl (by decide) (by decide)
    (by decide) (by decide)

/-- C6: a correct OTP code submitted after the expiry timestamp has passed
fails 401 with the code-expired error and deletes the pending record as
part of the check, so a subsequent lookup for the same (email, fingerprint)
finds nothing. -/
theorem c6_otp_expired_cleanup (env : Env) (req : Request) (ip : String) (st : St)
    (u : User) (p : Pending) (vc : String)
    (he : req.email ≠ "") (hp : req.password ≠ "") (hg : req.google = false)
    (hlt : ((getRate st.rate (ip ++ req.email)).filter
      (fun t => env.now - t < windowMs)).length < maxAttempts)
    (hfind : st.users.find? (fun v => v.email = req.email) = some u)
    (hpc : passwordToCheck u ≠ "")
    (hcmp : env.bcryptCompare req.password (passwordToCheck u) = true)
    (hsusp : u.suspended = false) (hht : u.is_honeytoken = false)
    (hver : u.verified ≠ some false)
    (hstr : passwordStrongEnough req.password = true)
    (hvc : req.verification_code = some vc) (hvcne : vc ≠ "")
    (hfindp : findPending st.pendings req.email env.fingerprintHash = some p)
    (hcode : p.code = vc) (hexp : p.expires_at < env.now) :
    loginHandler env req ip st =
      ⟨401, errBody "Verification code has expired. Please request a new one.", none,
        { st with
            rate := recordAllow env.now (ip ++ req.email) st.rate
            pendings := deletePending st.pendings req.email env.fingerprintHash }, 1⟩ ∧
    findPending (loginHandler env req ip st).st.pendings req.email
      env.fingerprintHash = none := by
  have h1 : loginHandler env req ip st =
      ⟨401, errBody "Verification code has expired. Please request a new one.", none,
        { st with
            rate := recordAllow env.now (ip ++ req.email) st.rate
            pendings := deletePending st.pendings req.email env.fingerprintHash }, 1⟩ := by
    simp [loginHandler, he, hp, hg, checkRateLimit_allows hlt, recordAllow, hfind, hpc,
      hcmp, hsusp, hht, hver, hstr, hvc, optTruthy, hvcne, hfindp, hcode, hexp]
  exact ⟨h1, by
    rw [h1]
    exact findPending_deletePending st.pendings req.email env.fingerprintHash⟩

/-- Witness for C6 at a concrete expired pending record. -/
theorem c6_otp_expired_cleanup_witness :
    loginHandler envA reqB "ip" stExp =
      ⟨401, errBody "Verification code has expired. Please request a new one.", none,
        { stExp with
            rate := recordAllow envA.now ("ip" ++ reqB.email) stExp.rate
            pendings := deletePending stExp.pendings reqB.email envA.fingerprintHash }, 1⟩ ∧
    findPending (loginHandler envA reqB "ip" stExp).st.pendings reqB.email
      envA.fingerprintHash = none :=
  c6_otp_expired_cleanup envA reqB "ip" stExp userA pendingExp "123456"
    (by decide) (by decide) rfl (by decide) (by decide) (by decide) (by decide)
    (by decide) (by decide) (by decide) (by decide) rfl (by decide) (by decide)
    (by decide) (by decide)

/-- C7: the verification code drawn from `r ∈ [0,1)` always lies in
100000..999999, each value of that range is hit exactly on an interval of
seeds of equal length 1/900000 (uniformity), a first-pass login persists
the record {email, fingerprint, freshCode, now+60s} via the keyed upsert,
the upsert keeps at most one live record per (email, fingerprint) pair
throughout any sequence of issuances, and the record looked up after an
upsert holds the most recently issued code. -/
theorem c7_code_issuance_upsert :
    (∀ r : ℚ, 0 ≤ r → r < 1 →
      100000 ≤ generateVerificationCode r ∧ generateVerificationCode r ≤ 999999) ∧
    (∀ (r : ℚ) (n : Nat), 0 ≤ r → r < 1 → 100000 ≤ n → n ≤ 999999 →
      (generateVerificationCode r = n ↔
        ((n : ℚ) - 100000) / 900000 ≤ r ∧ r < ((n : ℚ) - 99999) / 900000)) ∧
    (∀ (env : Env) (req : Request) (ip : String) (st : St) (u : User),
      req.email ≠ "" → req.password ≠ "" → req.google = false →
      ((getRate st.rate (ip ++ req.email)).filter
        (fun t => env.now - t < windowMs)).length < maxAttempts →
      st.users.find? (fun v => v.email = req.email) = some u →
      passwordToCheck u ≠ "" →
      env.bcryptCompare req.password (passwordToCheck u) = true →
      u.suspended = false → u.is_honeytoken = false → u.verified ≠ some false →
      passwordStrongEnough req.password = true →
      optTruthy req.verification_code = false →
      verifyCaptcha env req.captcha_token = true →
      (loginHandler env req ip st).st.pendings =
        upsertPending st.pendings
          ⟨req.email, env.fingerprintHash, env.freshCode, env.now + 60000⟩) ∧
    (∀ (ps : List Pending) (q : Pending), PendInv ps → PendInv (upsertPending ps q)) ∧
    (∀ (seq ps : List Pending), PendInv ps → PendInv (seq.foldl upsertPending ps)) ∧
    (∀ (ps : List Pending) (q : Pending),
      findPending (upsertPending ps q) q.email q.fingerprint = some q) := by
  refine ⟨generateVerificationCode_range, generateVerificationCode_uniform, ?_,
    pendInv_upsert, pendInv_foldl, findPending_upsert⟩
  intro env req ip st u he hp hg hlt hfind hpc hcmp hsusp hht hver hstr hvcf hcap
  simp [loginHandler, he, hp, hg, checkRateLimit_allows hlt, recordAllow, hfind, hpc,
    hcmp, hsusp, hht, hver, hstr, hvcf, hcap]
  split <;> rfl

/-- Witness for C7: the range and uniform-interval facts at concrete seeds,
a concrete first-pass issuance, and the invariant on concrete stores. -/
theorem c7_code_issuance_upsert_witness :
    (100000 ≤ generateVerificationCode (1/2) ∧
      generateVerificationCode (1/2) ≤ 999999) ∧
    (generateVerificationCode 0 = 100000 ↔
      (((100000 : Nat) : ℚ) - 100000) / 900000 ≤ 0 ∧
        (0 : ℚ) < (((100000 : Nat) : ℚ) - 99999) / 900000) ∧
    (loginHandler envA reqA "ip" stA).st.pendings =
      upsertPending stA.pendings
        ⟨reqA.email, envA.fingerprintHash, envA.freshCode, envA.now + 60000⟩ ∧
    PendInv (upsertPending [] pendingA) ∧
    PendInv ([pendingA].foldl upsertPending []) ∧
    findPending (upsertPending [] pendingA) pendingA.email pendingA.fingerprint =
      some pendingA :=
  ⟨c7_code_issuance_upsert.1 (1/2) (by norm_num) (by norm_num),
   c7_code_issuance_upsert.2.1 0 100000 le_rfl (by norm_num) le_rfl (by norm_num),
   c7_code_issuance_upsert.2.2.1 envA reqA "ip" stA userA (by decide) (by decide)
     rfl (by decide) (by decide) (by decide) (by decide) (by decide) (by decide)
     (by decide) (by decide) rfl rfl,
   c7_code_issuance_upsert.2.2.2.1 [] pendingA
     (fun e f => by simp [pendKeyCount]),
   c7_code_issuance_upsert.2.2.2.2.1 [pendingA] []
     (fun e f => by simp [pendKeyCount]),
   c7_code_issuance_upsert.2.2.2.2.2 [] pendingA⟩

/-- C8: the generated token is the three colon-separated lowercase-hex
segments iv_hex:authTag_hex:ciphertext_hex; the first segment is 32 hex
characters (128 bits) decoding exactly to the 16 random IV bytes, and the
key passed to the cipher is `scryptSync(secret, 'salt', 32)`, a 256-bit
value derived with the fixed salt. -/
theorem c8_token_format (c : TokenCrypto) (secret : String)
    (hivlen : (c.randomBytes 16).length = 16)
    (hivb : ∀ b ∈ c.randomBytes 16, b < 256)
    (htagb : ∀ b ∈ (c.aesGcmEncrypt (c.scryptSync secret "salt" 32)
      (c.randomBytes 16) c.newUuid).2, b < 256)
    (hctb : ∀ b ∈ (c.aesGcmEncrypt (c.scryptSync secret "salt" 32)
      (c.randomBytes 16) c.newUuid).1, b < 256)
    (hkeylen : (c.scryptSync secret "salt" 32).length = 32) :
    (generateEncryptedToken c secret).data =
      (hexEncode (c.randomBytes 16)).data ++
        ':' :: ((hexEncode (c.aesGcmEncrypt (c.scryptSync secret "salt" 32)
            (c.randomBytes 16) c.newUuid).2).data ++
          ':' :: (hexEncode (c.aesGcmEncrypt (c.scryptSync secret "salt" 32)
            (c.randomBytes 16) c.newUuid).1).data) ∧
    (∀ ch ∈ (hexEncode (c.randomBytes 16)).data,
      isLowerHex ch = true ∧ ch ≠ ':') ∧
    (∀ ch ∈ (hexEncode (c.aesGcmEncrypt (c.scryptSync secret "salt" 32)
        (c.randomBytes 16) c.newUuid).2).data,
      isLowerHex ch = true ∧ ch ≠ ':') ∧
    (∀ ch ∈ (hexEncode (c.aesGcmEncrypt (c.scryptSync secret "salt" 32)
        (c.randomBytes 16) c.newUuid).1).data,
      isLowerHex ch = true ∧ ch ≠ ':') ∧
    (hexEncode (c.randomBytes 16)).data.length = 32 ∧
    hexDecode (hexEncode (c.randomBytes 16)).data = c.randomBytes 16 ∧
    8 * (c.scryptSync secret "salt" 32).length = 256 := by
  refine ⟨?_, ?_, ?_, ?_, ?_, hexDecode_hexEncode _ hivb, by rw [hkeylen]⟩
  · simp [generateEncryptedToken]
  · intro ch hch
    have h := hexEncode_lower _ hivb ch hch
    exact ⟨h, isLowerHex_ne_colon ch h⟩
  · intro ch hch
    have h := hexEncode_lower _ htagb ch hch
    exact ⟨h, isLowerHex_ne_colon ch h⟩
  · intro ch hch
    have h := hexEncode_lower _ hctb ch hch
    exact ⟨h, isLowerHex_ne_colon ch h⟩
  · rw [hexEncode_length, hivlen]

/-- Witness for C8 at concrete crypto primitives. -/
theorem c8_token_format_witness :
    (generateEncryptedToken cryptoW "sec").data =
      (hexEncode (cryptoW.randomBytes 16)).data ++
        ':' :: ((hexEncode (cryptoW.aesGcmEncrypt (cryptoW.scryptSync "sec" "salt" 32)
            (cryptoW.randomBytes 16) cryptoW.newUuid).2).data ++
          ':' :: (hexEncode (cryptoW.aesGcmEncrypt (cryptoW.scryptSync "sec" "salt" 32)
            (cryptoW.randomBytes 16) cryptoW.newUuid).1).data) ∧
    (∀ ch ∈ (hexEncode (cryptoW.randomBytes 16)).data,
      isLowerHex ch = true ∧ ch ≠ ':') ∧
    (∀ ch ∈ (hexEncode (cryptoW.aesGcmEncrypt (cryptoW.scryptSync "sec" "salt" 32)
        (cryptoW.randomBytes 16) cryptoW.newUuid).2).data,
      isLowerHex ch = true ∧ ch ≠ ':') ∧
    (∀ ch ∈ (hexEncode (cryptoW.aesGcmEncrypt (cryptoW.scryptSync "sec" "salt" 32)
        (cryptoW.randomBytes 16) cryptoW.newUuid).1).data,
      isLowerHex ch = true ∧ ch ≠ ':') ∧
    (hexEncode (cryptoW.randomBytes 16)).data.length = 32 ∧
    hexDecode (hexEncode (cryptoW.randomBytes 16)).data = cryptoW.randomBytes 16 ∧
    8 * (cryptoW.scryptSync "sec" "salt" 32).length = 256 :=
  c8_token_format cryptoW "sec" (by decide) (by decide) (by decide) (by decide)
    (by decide)

/-- C9: on a fully verified login the persisted session expiry is
now + 1 day by default and now + 90 days with remember_me; the Set-Cookie
header is exactly
`__Host-session_secure=<token>; Path=/; HttpOnly; Secure; Max-Age=<seconds>; SameSite=Strict`
with Max-Age (in seconds) equal to the session lifetime, and the body's
session_expires equals the persisted expiry. -/
theorem c9_session_cookie (env : Env) (req : Request) (ip : String) (st : St)
    (u : User) (p : Pending) (vc : String)
    (he : req.email ≠ "") (hp : req.password ≠ "") (hg : req.google = false)
    (hlt : ((getRate st.rate (ip ++ req.email)).filter
      (fun t => env.now - t < windowMs)).length < maxAttempts)
    (hfind : st.users.find? (fun v => v.email = req.email) = some u)
    (hpc : passwordToCheck u ≠ "")
    (hcmp : env.bcryptCompare req.password (passwordToCheck u) = true)
    (hsusp : u.suspended = false) (hht : u.is_honeytoken = false)
    (hver : u.verified ≠ some false)
    (hstr : passwordStrongEnough req.password = true)
    (hvc : req.verification_code = some vc) (hvcne : vc ≠ "")
    (hfindp : findPending st.pendings req.email env.fingerprintHash = some p)
    (hcode : p.code = vc) (hexp : ¬ p.expires_at < env.now) :
    (loginHandler env req ip st).st.sessions =
      st.sessions ++ [⟨some u.id, req.email, env.freshToken,
        env.now + (if req.remember_me then 90 else 1) * 86400000, true⟩] ∧
    (loginHandler env req ip st).setCookie =
      some (cookieString env.freshToken (if req.remember_me then 90 else 1)) ∧
    (loginHandler env req ip st).body.session_expires =
      some (env.now + (if req.remember_me then 90 else 1) * 86400000) ∧
    cookieString env.freshToken (if req.remember_me then 90 else 1) =
      "__Host-session_secure=" ++ env.freshToken ++
        "; Path=/; HttpOnly; Secure; Max-Age=" ++
        toString ((if req.remember_me then 90 else 1) * 86400) ++ "; SameSite=Strict" ∧
    (if req.remember_me then 90 else 1) * 86400 * 1000 =
      (env.now + (if req.remember_me then 90 else 1) * 86400000) - env.now := by
  have h1 := loginHandler_full_success env req ip st u p vc he hp hg hlt hfind hpc
    hcmp hsusp hht hver hstr hvc hvcne hfindp hcode hexp
  have harith : ((if req.remember_me then 90 else 1) : Nat) * 24 * 60 * 60 =
      (if req.remember_me then 90 else 1) * 86400 := by
    cases req.remember_me <;> norm_num
  refine ⟨by rw [h1], by rw [h1], by rw [h1], ?_, ?_⟩
  · rw [cookieString, harith]
  · cases req.remember_me <;> simp

/-- Witness for C9 at a concrete fully verified login (default lifetime). -/
theorem c9_session_cookie_witness :
    (loginHandler envA reqB "ip" stB).st.sessions =
      stB.sessions ++ [⟨some userA.id, reqB.email, envA.freshToken,
        envA.now + (if reqB.remember_me then 90 else 1) * 86400000, true⟩] ∧
    (loginHandler envA reqB "ip" stB).setCookie =
      some (cookieString envA.freshToken (if reqB.remember_me then 90 else 1)) ∧
    (loginHandler envA reqB "ip" stB).body.session_expires =
      some (envA.now + (if reqB.remember_me then 90 else 1) * 86400000) ∧
    cookieString envA.freshToken (if reqB.remember_me then 90 else 1) =
      "__Host-session_secure=" ++ envA.freshToken ++
        "; Path=/; HttpOnly; Secure; Max-Age=" ++
        toString ((if reqB.remember_me then 90 else 1) * 86400) ++ "; SameSite=Strict" ∧
    (if reqB.remember_me then 90 else 1) * 86400 * 1000 =
      (envA.now + (if reqB.remember_me then 90 else 1) * 86400000) - envA.now :=
  c9_session_cookie envA reqB "ip" stB userA pendingA "123456"
    (by decide) (by decide) rfl (by decide) (by decide) (by decide) (by decide)
    (by decide) (by decide) (by decide) (by decide) rfl (by decide) (by decide)
    (by decide) (by decide)

end VibroX
